import Mathlib

/-!
# Verification of the svger grid application core (src/src/app.rs)

A shallow embedding of the application core of the `svger` repository:
the file lister `list_svg_files`, the grid layout computation
(`width as usize / GRID_ITEM_WIDTH` and the row-building loop in `view`),
and the message-driven state machine (`init`, `update`, `subscription`).

Modelling conventions:
* OS strings (file names) are byte lists (`List Nat`), since Rust `OsStr`
  on Linux is an arbitrary byte sequence; `OsStr::to_str` succeeds exactly
  when the bytes are valid UTF-8, which we model with an executable UTF-8
  validator.
* The filesystem seen by `list_svg_files` is a value: whether the path is a
  directory, and, if `read_dir` succeeds, the entry list where `none`
  stands for an `Err` entry (skipped by `entries.flatten()` in the source).
* `cosmic::app::Core` is runtime plumbing; the only piece of it the core
  logic touches is `core.window.show_context`, modelled as the Boolean
  field `show_context` of the state.  Title updates
  (`set_context_title`, `set_window_title`) and URL opening are commands
  against the windowing collaborator, modelled as emitted effects.
* A Rust panic (from `unwrap()`) is modelled by `Except.error`.
-/

namespace Svger

/-! ## OS strings and UTF-8 (for `OsStr::to_str`) -/

/-- A UTF-8 continuation byte: `0x80 ≤ b ≤ 0xBF`. -/
def utf8Cont (b : Nat) : Bool :=
  128 ≤ b && b ≤ 191

/-- Validity of a byte sequence as UTF-8, exactly as checked by Rust's
`str::from_utf8` (which backs `OsStr::to_str`): ASCII, 2-, 3- and 4-byte
sequences with the standard overlong, surrogate and range restrictions. -/
def utf8Valid : List Nat → Bool
  | [] => true
  | b :: rest =>
    if b ≤ 127 then utf8Valid rest
    else if 194 ≤ b && b ≤ 223 then
      match rest with
      | c :: r => utf8Cont c && utf8Valid r
      | [] => false
    else if b = 224 then
      match rest with
      | c :: d :: r => (160 ≤ c && c ≤ 191) && utf8Cont d && utf8Valid r
      | _ => false
    else if 225 ≤ b && b ≤ 236 then
      match rest with
      | c :: d :: r => utf8Cont c && utf8Cont d && utf8Valid r
      | _ => false
    else if b = 237 then
      match rest with
      | c :: d :: r => (128 ≤ c && c ≤ 159) && utf8Cont d && utf8Valid r
      | _ => false
    else if 238 ≤ b && b ≤ 239 then
      match rest with
      | c :: d :: r => utf8Cont c && utf8Cont d && utf8Valid r
      | _ => false
    else if b = 240 then
      match rest with
      | c :: d :: e :: r => (144 ≤ c && c ≤ 191) && utf8Cont d && utf8Cont e && utf8Valid r
      | _ => false
    else if 241 ≤ b && b ≤ 243 then
      match rest with
      | c :: d :: e :: r => utf8Cont c && utf8Cont d && utf8Cont e && utf8Valid r
      | _ => false
    else if b = 244 then
      match rest with
      | c :: d :: e :: r => (128 ≤ c && c ≤ 143) && utf8Cont d && utf8Cont e && utf8Valid r
      | _ => false
    else false

/-! ## File lister: `list_svg_files` -/

/-- A directory entry as `fs::read_dir` yields it: the final path component
(`entry.path().file_name()`, always present and nonempty for a directory
entry) and whether `path.is_file()` holds (a regular file, following
symlinks). -/
structure DirEntry where
  name : List Nat
  isFile : Bool
deriving DecidableEq, Repr

/-- The byte string of the extension literal in the source filter,
`ext == "svg"` at src/src/app.rs:79. -/
def svgBytes : List Nat := [115, 118, 103]

/-- Split a file name at its LAST dot (byte 46): `some (before, after)`
where `before ++ [46] ++ after = name` and `after` has no dot, `none` when
the name has no dot.  Mirrors the `rsplitn(2, b'.')` step inside Rust's
`Path::extension`. -/
def splitLastDot : List Nat → Option (List Nat × List Nat)
  | [] => none
  | b :: rest =>
    match splitLastDot rest with
    | some (bef, aft) => some (b :: bef, aft)
    | none => if b = 46 then some ([], rest) else none

/-- Rust `Path::extension` applied to a file name: `none` for `".."`, for a
name without a dot, and for a name whose only dot is its first byte
(hidden files such as `".svg"`); otherwise the bytes after the last dot. -/
def extension (name : List Nat) : Option (List Nat) :=
  if name = [46, 46] then none
  else
    match splitLastDot name with
    | none => none
    | some (bef, aft) => if bef = [] then none else some aft

/-- The filesystem state `list_svg_files` observes for its directory
argument: the result of `path.is_dir()`, and the result of
`fs::read_dir` when attempted — `none` when `read_dir` returns `Err`, and
inside a successful listing each `none` is an `Err` entry that
`entries.flatten()` skips. -/
structure Filesystem where
  isDir : Bool
  readDir : Option (List (Option DirEntry))

/-- `list_svg_files` (src/src/app.rs:71-87): if the path is a directory
and readable, keep the entries that are regular files with extension
exactly `"svg"` (byte equality, hence case-sensitive); otherwise the
empty list. -/
def list_svg_files (fs : Filesystem) : List DirEntry :=
  if fs.isDir then
    match fs.readDir with
    | some entries =>
        (entries.filterMap id).filter
          (fun e => e.isFile && extension e.name == some svgBytes)
    | none => []
  else []

/-! ## Grid layout -/

/-- `GRID_ITEM_WIDTH` (src/src/app.rs:16): the fixed cell width in layout
units. -/
def GRID_ITEM_WIDTH : Nat := 256

/-- The capacity computation `width as usize / GRID_ITEM_WIDTH`, appearing
both in `subscription` (src/src/app.rs:244) and in
`update_grid_rows_count` (src/src/app.rs:292).  This is the spec's
`computeRowCapacity` with the cell width fixed at 256. -/
def computeRowCapacity (width : Nat) : Nat :=
  width / GRID_ITEM_WIDTH

/-- The row-building loop of `view` (src/src/app.rs:161-184): push items
into the current row, counting with `row_count`; when the count reaches
`n` emit the row (`insert_row`) and reset.  `acc` is the current partial
row and `rc` the value of `row_count`.  A nonempty trailing partial row
remains in the grid as its final row. -/
def partitionGo (n : Nat) : List DirEntry → List DirEntry → Nat → List (List DirEntry)
  | [], acc, _ => if acc = [] then [] else [acc]
  | x :: xs, acc, rc =>
    if rc + 1 = n then (acc ++ [x]) :: partitionGo n xs [] 0
    else partitionGo n xs (acc ++ [x]) (rc + 1)

/-- The spec's `partitionIntoRows`: the grid rows produced by `view`'s
loop for a given item list and row capacity. -/
def partitionIntoRows (items : List DirEntry) (n : Nat) : List (List DirEntry) :=
  partitionGo n items [] 0

/-! ## State machine -/

/-- `ContextPage` (src/src/app.rs:43-46): the overlay identifiers; a
single variant `About`, which is also the `Default`. -/
inductive ContextPage where
  | About
deriving DecidableEq, Repr

/-- `SvgerMessage` (src/src/app.rs:35-39). -/
inductive SvgerMessage where
  | LaunchUrl (url : String)
  | ToggleContextPage (cp : ContextPage)
  | UpdateGridRowsCount (n : Option Nat)
deriving DecidableEq, Repr

/-- `REPOSITORY` (src/src/app.rs:14), the only URL the UI ever sends with
`LaunchUrl`. -/
def REPOSITORY : String := "https://github.com/edfloreshz/cosmic-app-template"

/-- The application state (struct `Svger`, src/src/app.rs:20-29), keeping
the fields the core logic reads or writes: `context_page`,
`core.window.show_context` (the overlay visibility bit), `svg_files`, and
`grid_rows_count`.  `core`'s other contents and `key_binds` are runtime
plumbing never branched on. -/
structure State where
  context_page : ContextPage
  show_context : Bool
  svg_files : List DirEntry
  grid_rows_count : Option Nat
deriving DecidableEq, Repr

/-- Commands/side effects the state machine requests from its
collaborators: `open::that_detached`, `set_context_title`,
`set_window_title`, and the async `window::fetch_size` measurement. -/
inductive Effect where
  | openUrl (url : String)
  | setContextTitle (cp : ContextPage)
  | setWindowTitle
  | fetchSize
deriving DecidableEq, Repr

/-- `update` (src/src/app.rs:201-224) as a pure reducer:
`LaunchUrl` fires the URL open and discards the result;
`ToggleContextPage` flips `show_context` when the requested page is the
current one, otherwise switches page and shows the drawer, then sets the
drawer title; `UpdateGridRowsCount` overwrites `grid_rows_count`.  The
Rust function returns `Command::none()` in every branch, so no follow-up
message is ever emitted; the effect list records the direct side effects
against collaborators. -/
def update (s : State) (m : SvgerMessage) : State × List Effect :=
  match m with
  | .LaunchUrl url => (s, [.openUrl url])
  | .ToggleContextPage cp =>
      if s.context_page = cp then
        ({ s with show_context := !s.show_context }, [.setContextTitle cp])
      else
        ({ s with context_page := cp, show_context := true }, [.setContextTitle cp])
  | .UpdateGridRowsCount n => ({ s with grid_rows_count := n }, [])

/-- The state built by `init` (src/src/app.rs:121-133): default context
page `About`, the file list from `list_svg_files(SVG_DIR)`, and
`grid_rows_count: None`.  The context drawer starts hidden
(`show_context = false`, the runtime's initial `Core`). -/
def initState (fs : Filesystem) : State :=
  { context_page := .About
    show_context := false
    svg_files := list_svg_files fs
    grid_rows_count := none }

/-- The commands batched by `init`: `update_titles` (set the window
title) and `update_grid_rows_count` (fetch the window size
asynchronously). -/
def initEffects : List Effect := [.setWindowTitle, .fetchSize]

/-- The message the startup measurement delivers when `fetch_size`
resolves with width `w` (src/src/app.rs:290-299):
`UpdateGridRowsCount(Some(w / GRID_ITEM_WIDTH))`. -/
def startupMeasureMessage (w : Nat) : SvgerMessage :=
  .UpdateGridRowsCount (some (w / GRID_ITEM_WIDTH))

/-! ## Subscription (window events) -/

/-- `iced::window::Event` as matched by `subscription`: the `Resized`
variant carries a width and a height; every other variant is collapsed
into `other` since the source wildcard-ignores them all. -/
inductive WindowEvent where
  | Resized (width : Nat) (height : Nat)
  | other
deriving DecidableEq, Repr

/-- An `iced` runtime event: a window event tagged with a window id, or
any non-window event (collapsed into `nonWindow`, wildcard-ignored by the
source). -/
inductive Event where
  | Window (id : Nat) (we : WindowEvent)
  | nonWindow
deriving DecidableEq, Repr

/-- `window::Id::MAIN`, the main window's identifier. -/
def MAIN_WINDOW_ID : Nat := 0

/-- `subscription` (src/src/app.rs:237-255): a resize of the main window
yields `UpdateGridRowsCount(Some(width / GRID_ITEM_WIDTH))`; every other
event yields no message. -/
def subscriptionMsg : Event → Option SvgerMessage
  | .Window id we =>
      if id = MAIN_WINDOW_ID then
        match we with
        | .Resized w _ => some (.UpdateGridRowsCount (some (w / GRID_ITEM_WIDTH)))
        | .other => none
      else none
  | .nonWindow => none

/-- One event delivery: if the subscription maps the event to a message,
run `update` on it; otherwise the state is untouched. -/
def eventStep (s : State) (e : Event) : State :=
  match subscriptionMsg e with
  | some m => (update s m).1
  | none => s

/-! ## View -/

/-- The shape of what `view` (src/src/app.rs:154-196) renders: the
welcome caption while `grid_rows_count` is `None`, or the scrollable grid
of rows. -/
inductive ViewModel where
  | welcome
  | grid (rows : List (List DirEntry))
deriving DecidableEq, Repr

/-- `view` (src/src/app.rs:154-196).  With `grid_rows_count = None` it
returns the welcome caption.  Otherwise it builds the grid with the
row-building loop; for each item it renders the caption
`path.file_name().unwrap().to_str().unwrap()` (src/src/app.rs:171-173):
`file_name()` is always `Some` for a directory entry's path, but
`to_str()` is `None` — and the `unwrap()` panics — when the file name is
not valid UTF-8.  The panic is modelled by `Except.error ()`. -/
def view (s : State) : Except Unit ViewModel :=
  match s.grid_rows_count with
  | none => .ok .welcome
  | some n =>
      if s.svg_files.all (fun e => utf8Valid e.name) then
        .ok (.grid (partitionIntoRows s.svg_files n))
      else .error ()

/-! ## Reachability -/

/-- The states the application can reach, for a fixed filesystem: the
init state; a step on a message produced by the subscription for some
runtime event; a step on the startup measurement's message (any measured
width `w`); and steps on the two messages the rendered UI can send — the
About menu item's `ToggleContextPage(About)` and the about page link's
`LaunchUrl(REPOSITORY)`. -/
inductive Reachable (fs : Filesystem) : State → Prop where
  | base : Reachable fs (initState fs)
  | stepEvent (s : State) (e : Event) (m : SvgerMessage) :
      Reachable fs s → subscriptionMsg e = some m → Reachable fs (update s m).1
  | stepMeasure (s : State) (w : Nat) :
      Reachable fs s → Reachable fs (update s (startupMeasureMessage w)).1
  | stepToggle (s : State) :
      Reachable fs s → Reachable fs (update s (.ToggleContextPage .About)).1
  | stepLaunch (s : State) :
      Reachable fs s → Reachable fs (update s (.LaunchUrl REPOSITORY)).1


/-! ## Concrete data used by witnesses and counterexamples -/

/-- The entry `a.svg` (bytes of the name), a regular file. -/
def entryA : DirEntry := { name := [97, 46, 115, 118, 103], isFile := true }

/-- The entry `b.png`, a regular file with a non-`svg` extension. -/
def entryB : DirEntry := { name := [98, 46, 112, 110, 103], isFile := true }

/-- The entry `c.SVG`, a regular file with an uppercase extension. -/
def entryC : DirEntry := { name := [99, 46, 83, 86, 71], isFile := true }

/-- The subdirectory `sub` (not a regular file). -/
def entrySub : DirEntry := { name := [115, 117, 98], isFile := false }

/-- A readable directory holding `a.svg`, `b.png`, `c.SVG` and the
subdirectory `sub`. -/
def fsExample : Filesystem :=
  { isDir := true, readDir := some [some entryA, some entryB, some entryC, some entrySub] }

/-- A path that is not a directory. -/
def fsNotDir : Filesystem := { isDir := false, readDir := none }

/-- A readable directory holding just `a.svg`. -/
def fsA : Filesystem := { isDir := true, readDir := some [some entryA] }

/-- The state after `init` on `fsA` followed by a main-window resize to
width 100 (narrower than one 256-unit cell). -/
def narrowState : State :=
  eventStep (initState fsA) (Event.Window 0 (WindowEvent.Resized 100 500))

/-- Five SVG entries (`1.svg` … `5.svg`), the spec's end-to-end example. -/
def demoItems : List DirEntry :=
  [ { name := [49, 46, 115, 118, 103], isFile := true },
    { name := [50, 46, 115, 118, 103], isFile := true },
    { name := [51, 46, 115, 118, 103], isFile := true },
    { name := [52, 46, 115, 118, 103], isFile := true },
    { name := [53, 46, 115, 118, 103], isFile := true } ]

/-- The caption computation of `view` (src/src/app.rs:171-173),
`path.file_name().unwrap().to_str().unwrap()`: for a directory entry the
file name is always present, and `to_str` yields the name exactly when
its bytes are valid UTF-8 — otherwise the second `unwrap()` panics
(`none` here). -/
def fileLabel (e : DirEntry) : Option (List Nat) :=
  if utf8Valid e.name then some e.name else none

/-- An entry whose name bytes `0xFF . s v g` are not valid UTF-8 but whose
extension is exactly `svg`. -/
def badEntry : DirEntry := { name := [255, 46, 115, 118, 103], isFile := true }

/-- A readable directory holding just the non-UTF-8-named SVG file. -/
def fsBad : Filesystem := { isDir := true, readDir := some [some badEntry] }

/-- The state after `init` on `fsBad` followed by a main-window resize to
width 600. -/
def badState : State :=
  eventStep (initState fsBad) (Event.Window 0 (WindowEvent.Resized 600 400))

end Svger

namespace Svger

/-! ## Layout lemmas -/

/-- Concatenating the rows built by the view loop recovers the pending
row followed by the remaining items. -/
theorem partitionGo_join (n : Nat) :
    ∀ (xs acc : List DirEntry) (rc : Nat), (partitionGo n xs acc rc).flatten = acc ++ xs := by
  intro xs
  induction xs with
  | nil =>
      intro acc rc
      simp only [partitionGo]
      split <;> simp [*]
  | cons x xs ih =>
      intro acc rc
      simp only [partitionGo]
      split
      · simp [List.flatten, ih]
      · simp [ih]

/-- Every emitted (non-final) row of the view loop has exactly `n` items,
provided the pending row is consistent with the counter and shorter than
`n`. -/
theorem partitionGo_dropLast_length (n : Nat) :
    ∀ (xs acc : List DirEntry) (rc : Nat), acc.length = rc → rc < n →
      ∀ r ∈ (partitionGo n xs acc rc).dropLast, r.length = n := by
  intro xs
  induction xs with
  | nil =>
      intro acc rc _ _ r hr
      simp only [partitionGo] at hr
      split at hr <;> simp at hr
  | cons x xs ih =>
      intro acc rc hlen hrc r hr
      simp only [partitionGo] at hr
      split at hr
      · rename_i heq
        rcases hL : partitionGo n xs [] 0 with _ | ⟨y, L⟩
        · rw [hL] at hr
          simp at hr
        · rw [hL] at hr
          rw [List.dropLast_cons₂] at hr
          rcases List.mem_cons.mp hr with h | h
          · subst h
            simp [hlen, heq]
          · have := ih [] 0 rfl (Nat.lt_of_lt_of_le (Nat.zero_lt_succ rc) (by omega)) r
            rw [hL] at this
            exact this h
      · rename_i hne
        exact ih (acc ++ [x]) (rc + 1) (by simp [hlen]) (by omega) r hr

theorem partitionGo_zero :
    ∀ (xs acc : List DirEntry) (rc : Nat),
      partitionGo 0 xs acc rc = if acc ++ xs = [] then [] else [acc ++ xs] := by
  intro xs
  induction xs with
  | nil => intro acc rc; simp [partitionGo]
  | cons x xs ih =>
      intro acc rc
      simp only [partitionGo, Nat.succ_ne_zero, if_false]
      rw [ih]
      simp

end Svger

namespace Svger

/-! ## Claim theorems -/

/-- C3: for every item sequence and row capacity `n ≥ 1`, the view loop's
partition gives rows where every row except possibly the last has exactly
`n` items, and the rows concatenated in order are exactly the original
sequence. -/
theorem partition_rows_sizes_and_flatten (items : List DirEntry) (n : Nat) (hn : 1 ≤ n) :
    (∀ r ∈ (partitionIntoRows items n).dropLast, r.length = n) ∧
      (partitionIntoRows items n).flatten = items := by
  constructor
  · exact partitionGo_dropLast_length n items [] 0 rfl hn
  · simpa using partitionGo_join n items [] 0

/-- Witness for C3 at the spec's end-to-end example: five items at
capacity 2 split into rows of sizes 2, 2, 1 and flatten back. -/
theorem partition_rows_sizes_and_flatten_witness :
    (1 ≤ 2 ∧ partitionIntoRows demoItems 2 =
        [[demoItems.get ⟨0, by decide⟩, demoItems.get ⟨1, by decide⟩],
         [demoItems.get ⟨2, by decide⟩, demoItems.get ⟨3, by decide⟩],
         [demoItems.get ⟨4, by decide⟩]]) ∧
      (∀ r ∈ (partitionIntoRows demoItems 2).dropLast, r.length = 2) ∧
        (partitionIntoRows demoItems 2).flatten = demoItems :=
  ⟨⟨by decide, by decide⟩, partition_rows_sizes_and_flatten demoItems 2 (by decide)⟩

/-- C4: for every width `w ≥ 256`, both the resize subscription and the
startup measurement deliver `UpdateGridRowsCount (some (w / 256))` — the
floored quotient — and the computed capacity is monotone in the width. -/
theorem resize_capacity_floor_monotone (w h v : Nat) (_hw : GRID_ITEM_WIDTH ≤ w) :
    subscriptionMsg (Event.Window MAIN_WINDOW_ID (WindowEvent.Resized w h)) =
        some (SvgerMessage.UpdateGridRowsCount (some (w / 256))) ∧
      startupMeasureMessage w = SvgerMessage.UpdateGridRowsCount (some (w / 256)) ∧
      computeRowCapacity w = w / 256 ∧
      (w ≤ v → computeRowCapacity w ≤ computeRowCapacity v) := by
  refine ⟨by simp [subscriptionMsg, GRID_ITEM_WIDTH], rfl, rfl, fun hle => ?_⟩
  exact Nat.div_le_div_right hle

/-- Witness for C4 at width 600 (capacity 2) against width 700. -/
theorem resize_capacity_floor_monotone_witness :
    GRID_ITEM_WIDTH ≤ 600 ∧
      subscriptionMsg (Event.Window MAIN_WINDOW_ID (WindowEvent.Resized 600 400)) =
        some (SvgerMessage.UpdateGridRowsCount (some 2)) ∧
      computeRowCapacity 600 ≤ computeRowCapacity 700 := by
  have h := resize_capacity_floor_monotone 600 400 700 (by decide)
  exact ⟨by decide, by rw [h.1], h.2.2.2 (by decide)⟩

/-- C6: starting with the overlay hidden, processing
`ToggleContextPage About` twice returns the overlay to hidden. -/
theorem toggle_twice_from_hidden (s : State) (h : s.show_context = false) :
    ((update (update s (SvgerMessage.ToggleContextPage ContextPage.About)).1
        (SvgerMessage.ToggleContextPage ContextPage.About)).1).show_context = false := by
  obtain ⟨cp, sc, files, grc⟩ := s
  cases cp
  subst h
  simp [update]

/-- Witness for C6 at the init state on `fsA`, whose overlay is hidden. -/
theorem toggle_twice_from_hidden_witness :
    (initState fsA).show_context = false ∧
      ((update (update (initState fsA) (SvgerMessage.ToggleContextPage ContextPage.About)).1
          (SvgerMessage.ToggleContextPage ContextPage.About)).1).show_context = false :=
  ⟨rfl, toggle_twice_from_hidden (initState fsA) rfl⟩

/-- C8: `UpdateGridRowsCount v` overwrites `grid_rows_count` with `v`
unconditionally, emits nothing, and leaves the file list, the context
page and the overlay visibility untouched. -/
theorem set_row_capacity_frame (s : State) (v : Option Nat) :
    (update s (SvgerMessage.UpdateGridRowsCount v)).1.grid_rows_count = v ∧
      (update s (SvgerMessage.UpdateGridRowsCount v)).1.svg_files = s.svg_files ∧
      (update s (SvgerMessage.UpdateGridRowsCount v)).1.context_page = s.context_page ∧
      (update s (SvgerMessage.UpdateGridRowsCount v)).1.show_context = s.show_context ∧
      (update s (SvgerMessage.UpdateGridRowsCount v)).2 = [] :=
  ⟨rfl, rfl, rfl, rfl, rfl⟩

/-- C9: only a resize of the main window produces a message: an event for
another window, a non-resize main-window event, and a non-window event
all map to no message, and delivering them leaves the state unchanged. -/
theorem subscription_only_main_resize (s : State) (e : Event)
    (h : (∃ i we, e = Event.Window i we ∧ i ≠ MAIN_WINDOW_ID) ∨
         (∃ we, e = Event.Window MAIN_WINDOW_ID we ∧ ∀ w v, we ≠ WindowEvent.Resized w v) ∨
         e = Event.nonWindow) :
    subscriptionMsg e = none ∧ eventStep s e = s := by
  have hnone : subscriptionMsg e = none := by
    rcases h with ⟨i, we, rfl, hi⟩ | ⟨we, rfl, hwe⟩ | rfl
    · simp [subscriptionMsg, hi]
    · cases we with
      | Resized w v => exact absurd rfl (hwe w v)
      | other => simp [subscriptionMsg]
    · rfl
  exact ⟨hnone, by simp [eventStep, hnone]⟩

/-- Witness for C9: a resize of window 1 (not the main window) produces
no message and does not change the init state. -/
theorem subscription_only_main_resize_witness :
    subscriptionMsg (Event.Window 1 (WindowEvent.Resized 300 300)) = none ∧
      eventStep (initState fsA) (Event.Window 1 (WindowEvent.Resized 300 300)) = initState fsA :=
  subscription_only_main_resize (initState fsA) (Event.Window 1 (WindowEvent.Resized 300 300))
    (Or.inl ⟨1, WindowEvent.Resized 300 300, rfl, by decide⟩)

/-- C10: since `ContextPage` has the single variant `About` (the stored
page's initial value), toggling strictly complements the overlay
visibility, and toggling twice restores the state exactly. -/
theorem toggle_involution (s : State) :
    ((update s (SvgerMessage.ToggleContextPage ContextPage.About)).1.show_context = true ↔
        s.show_context = false) ∧
      (update (update s (SvgerMessage.ToggleContextPage ContextPage.About)).1
        (SvgerMessage.ToggleContextPage ContextPage.About)).1 = s := by
  obtain ⟨cp, sc, files, grc⟩ := s
  cases cp
  cases sc <;> simp [update]

end Svger

namespace Svger

/-- C7: membership in the result of `list_svg_files` holds exactly for
the readable entries of a readable directory that are regular files with
byte-exact extension `svg`; a non-directory or unreadable path yields the
empty list. -/
theorem list_svg_files_spec (fs : Filesystem) (e : DirEntry) :
    ((fs.isDir = false ∨ fs.readDir = none) → list_svg_files fs = []) ∧
      (e ∈ list_svg_files fs ↔
        fs.isDir = true ∧ ∃ l, fs.readDir = some l ∧ some e ∈ l ∧
          e.isFile = true ∧ extension e.name = some svgBytes) := by
  obtain ⟨d, rd⟩ := fs
  cases d
  · refine ⟨fun _ => rfl, ?_⟩
    simp [list_svg_files]
  · cases rd with
    | none =>
        refine ⟨fun _ => rfl, ?_⟩
        simp [list_svg_files]
    | some l =>
        constructor
        · rintro (h | h) <;> simp at h
        · constructor
          · intro hm
            have hm2 : e ∈ (l.filterMap id).filter
                (fun e => e.isFile && extension e.name == some svgBytes) := hm
            rw [List.mem_filter, List.mem_filterMap] at hm2
            obtain ⟨⟨a, ha, hae⟩, hp⟩ := hm2
            simp only [id] at hae
            subst hae
            rw [Bool.and_eq_true, beq_iff_eq] at hp
            exact ⟨rfl, l, rfl, ha, hp.1, hp.2⟩
          · rintro ⟨-, l2, hl2, hmem, hfile, hext⟩
            cases hl2
            show e ∈ (l.filterMap id).filter
              (fun e => e.isFile && extension e.name == some svgBytes)
            rw [List.mem_filter, List.mem_filterMap]
            refine ⟨⟨some e, hmem, rfl⟩, ?_⟩
            rw [Bool.and_eq_true, beq_iff_eq]
            exact ⟨hfile, hext⟩

/-- Witness for C7: a non-directory path lists nothing, and the spec's
example directory (`a.svg`, `b.png`, `c.SVG`, `sub/`) lists exactly
`a.svg`. -/
theorem list_svg_files_spec_witness :
    list_svg_files fsNotDir = [] ∧ list_svg_files fsExample = [entryA] :=
  ⟨(list_svg_files_spec fsNotDir entryA).1 (Or.inl rfl), by decide⟩

/-- C2 (amended): the resize handler stores `Some (w / 256)` without
clamping; the stored capacity is at least 1 exactly when the width
reaches one cell, so widths below 256 store `Some 0`. -/
theorem resize_stores_unclamped_capacity (s : State) (w h : Nat) :
    subscriptionMsg (Event.Window MAIN_WINDOW_ID (WindowEvent.Resized w h)) =
        some (SvgerMessage.UpdateGridRowsCount (some (computeRowCapacity w))) ∧
      (eventStep s (Event.Window MAIN_WINDOW_ID (WindowEvent.Resized w h))).grid_rows_count =
        some (computeRowCapacity w) ∧
      (1 ≤ computeRowCapacity w ↔ GRID_ITEM_WIDTH ≤ w) := by
  have h1 : subscriptionMsg (Event.Window MAIN_WINDOW_ID (WindowEvent.Resized w h)) =
      some (SvgerMessage.UpdateGridRowsCount (some (computeRowCapacity w))) := by
    simp [subscriptionMsg, computeRowCapacity]
  refine ⟨h1, ?_, ?_⟩
  · simp [eventStep, h1, update]
  · exact Nat.one_le_div_iff (by decide)

/-- Counterexample for C2: after `init` on a directory holding one SVG
file, a main-window resize to width 100 reaches a state whose
`grid_rows_count` is `Some 0` — the claimed invariant `Some n → n ≥ 1`
fails on the code. -/
theorem reachable_capacity_zero :
    Reachable fsA narrowState ∧ narrowState.grid_rows_count = some 0 := by
  constructor
  · exact Reachable.stepEvent (initState fsA) (Event.Window 0 (WindowEvent.Resized 100 500))
      (SvgerMessage.UpdateGridRowsCount (some 0)) Reachable.base rfl
  · rfl

/-- C1 (amended): below one cell width the computed capacity is 0, but
the view skips layout only when `grid_rows_count` is `None`; with
`Some 0` it still partitions, putting all items into one single row. -/
theorem view_capacity_zero_single_row (w : Nat) (s : State) :
    (w < GRID_ITEM_WIDTH → computeRowCapacity w = 0) ∧
      (s.grid_rows_count = none → view s = Except.ok ViewModel.welcome) ∧
      (s.grid_rows_count = some 0 →
        (s.svg_files.all fun e => utf8Valid e.name) = true → s.svg_files ≠ [] →
        view s = Except.ok (ViewModel.grid [s.svg_files])) := by
  refine ⟨fun hlt => Nat.div_eq_of_lt hlt, fun hnone => by simp [view, hnone], ?_⟩
  intro hzero hall hne
  simp only [view, hzero, hall, if_pos]
  rw [partitionIntoRows, partitionGo_zero]
  simp [hne]

/-- Witness for C1 (amended): width 100 gives capacity 0; the init state
(capacity unset) renders the welcome caption; the narrow state (capacity
`Some 0`, one item) renders a grid with that item in a single row. -/
theorem view_capacity_zero_single_row_witness :
    computeRowCapacity 100 = 0 ∧
      view (initState fsA) = Except.ok ViewModel.welcome ∧
      view narrowState = Except.ok (ViewModel.grid [[entryA]]) := by
  refine ⟨(view_capacity_zero_single_row 100 (initState fsA)).1 (by decide),
    (view_capacity_zero_single_row 100 (initState fsA)).2.1 rfl, ?_⟩
  have h := (view_capacity_zero_single_row 100 narrowState).2.2 rfl (by decide) (by decide)
  exact h.trans rfl

/-- Counterexample for C1: in the reachable narrow-window state the
capacity is 0, yet the view does not render nothing or the placeholder —
it lays the item out in a row. -/
theorem view_capacity_zero_renders_items :
    Reachable fsA narrowState ∧ narrowState.grid_rows_count = some 0 ∧
      view narrowState = Except.ok (ViewModel.grid [[entryA]]) ∧
      view narrowState ≠ Except.ok ViewModel.welcome ∧
      view narrowState ≠ Except.ok (ViewModel.grid []) := by
  refine ⟨?_, rfl, rfl, ?_, ?_⟩
  · exact Reachable.stepEvent (initState fsA) (Event.Window 0 (WindowEvent.Resized 100 500))
      (SvgerMessage.UpdateGridRowsCount (some 0)) Reachable.base rfl
  · intro hcontra
    rw [show view narrowState = Except.ok (ViewModel.grid [[entryA]]) from rfl] at hcontra
    exact ViewModel.noConfusion (Except.ok.inj hcontra)
  · intro hcontra
    rw [show view narrowState = Except.ok (ViewModel.grid [[entryA]]) from rfl] at hcontra
    have := Except.ok.inj hcontra
    simp at this

end Svger

namespace Svger

/-- C5 (amended): label derivation succeeds for every listed file whose
name is valid UTF-8, and on such states evaluating the view completes
without a panic; message processing itself is a total reducer. -/
theorem view_total_on_utf8_names (s : State)
    (h : (s.svg_files.all fun e => utf8Valid e.name) = true) :
    (∀ e ∈ s.svg_files, ∃ lbl, fileLabel e = some lbl) ∧ ∃ v, view s = Except.ok v := by
  constructor
  · intro e he
    have hv := List.all_eq_true.mp h e he
    exact ⟨e.name, by simp [fileLabel, hv]⟩
  · cases hg : s.grid_rows_count with
    | none => exact ⟨ViewModel.welcome, by simp [view, hg]⟩
    | some n => exact ⟨ViewModel.grid (partitionIntoRows s.svg_files n), by simp [view, hg, h]⟩

/-- Witness for C5 (amended) at the narrow-window state over `fsA`, whose
single file name `a.svg` is ASCII. -/
theorem view_total_on_utf8_names_witness :
    ((narrowState.svg_files.all fun e => utf8Valid e.name) = true) ∧
      ∃ v, view narrowState = Except.ok v :=
  ⟨by decide, (view_total_on_utf8_names narrowState (by decide)).2⟩

/-- Counterexample for C5: with a directory holding an SVG file whose
name is not valid UTF-8, the lister accepts the file, yet its label
derivation fails and evaluating the view in the reachable laid-out state
panics (the second `unwrap()` at src/src/app.rs:172). -/
theorem view_panics_on_non_utf8_name :
    Reachable fsBad badState ∧ badState.svg_files = [badEntry] ∧
      fileLabel badEntry = none ∧ view badState = Except.error () := by
  refine ⟨?_, rfl, rfl, rfl⟩
  exact Reachable.stepEvent (initState fsBad) (Event.Window 0 (WindowEvent.Resized 600 400))
    (SvgerMessage.UpdateGridRowsCount (some 2)) Reachable.base rfl

end Svger
